import Mathlib

/-!
Verification development for the sentiment-analysis streaming pipeline.

Each definition below is a shallow embedding of one function of the
repository, translated from its Python source:

  - should_retry            — ErrorHandler._should_retry            (src/utils/error_handler.py)
  - textblob_sentiment      — SentimentAnalyzer.textblob_sentiment  (src/sentiment_analysis/sentiment_analyzer.py)
  - collect_tweets          — TwitterCollector.collect_tweets       (src/data_collection/twitter_collector.py)
  - process_batch_data      — DataProcessor.process_batch_data      (src/streaming/data_processor.py)
  - process_sentiment_batch — RealTimePipeline.process_sentiment_batch
  - store_results           — RealTimePipeline.store_results
  - run_single_cycle        — RealTimePipeline.run_single_cycle
  - streamTrace             — RealTimePipeline.start_streaming (timing loop)
  - streaming_loop          — RealTimePipeline.start_streaming / stop_streaming
  - pipeline_init           — RealTimePipeline construction (MongoDBClient.connect,
                              DataProcessor.setup_spark)

External effects (network fetches, TextBlob polarity, wall clocks, database
writes) are parameters of the embedding: each is passed in as an explicit
oracle so that the control flow of the Python code is what the definitions
capture.
-/

/-! ## Retry policy: ErrorHandler._should_retry -/

/-- ASCII lowercase mapping of a single character, modelling the effect of
the Python str.lower call on the error messages the handler inspects. -/
def charLower (c : Char) : Char :=
  if 65 ≤ c.toNat ∧ c.toNat ≤ 90 then Char.ofNat (c.toNat + 32) else c

/-- Lowercased character sequence of a message, modelling str(error).lower(). -/
def strLower (s : String) : List Char := s.data.map charLower

/-- Containment of a needle as a contiguous substring of a haystack,
modelling the Python expression term in message. -/
def infixOfChars (needle hay : List Char) : Bool :=
  match hay with
  | [] => needle.isEmpty
  | _ :: t => needle.isPrefixOf hay || infixOfChars needle t

/-- Modelling any(term in str(error).lower() for term in terms). -/
def containsAnyTerm (msg : List Char) (terms : List String) : Bool :=
  terms.any (fun t => infixOfChars t.data msg)

/-- ErrorHandler._should_retry: decides whether an operation is retried,
given the error message and the running error count for that error key.
The checks run in the order of the source: count cutoff, network terms,
rate-limit terms, authentication terms, then the default count rule. -/
def should_retry (errorMsg : String) (errorCount : Nat) : Bool :=
  if 5 < errorCount then false
  else if containsAnyTerm (strLower errorMsg) ["timeout", "connection", "network"] then true
  else if containsAnyTerm (strLower errorMsg) ["rate limit", "too many requests"] then true
  else if containsAnyTerm (strLower errorMsg) ["unauthorized", "forbidden", "invalid credentials"] then false
  else errorCount ≤ 3

/-! ## Scoring: SentimentAnalyzer.textblob_sentiment -/

inductive SentLabel where
  | positive
  | neutral
  | negative
deriving DecidableEq, Repr

/-- The dictionary returned by textblob_sentiment. -/
structure TBSentiment where
  label : SentLabel
  polarity : ℚ
  subjectivity : ℚ
  confidence : ℚ
deriving DecidableEq, Repr

/-- SentimentAnalyzer.textblob_sentiment. The TextBlob polarity and
subjectivity of the input text are oracle inputs here (the library call is
external); the labelling, thresholds and confidence are from the source. -/
def textblob_sentiment (polarity subjectivity : ℚ) : TBSentiment :=
  { label :=
      if polarity > 1/10 then SentLabel.positive
      else if polarity < -(1/10) then SentLabel.negative
      else SentLabel.neutral
    polarity := polarity
    subjectivity := subjectivity
    confidence := |polarity| }

/-! ## Twitter adapter: TwitterCollector.collect_tweets -/

/-- One item produced by the paginated search, with the fields the
collector reads. -/
structure TweetRec where
  tid : Nat
  text : String
  lang : String
deriving DecidableEq, Repr

/-- Outcome of one fetch attempt. A failing attempt may have appended some
items before the exception was raised mid-iteration, so both failure forms
carry the items already yielded. -/
inductive FetchOutcome where
  | success (items : List TweetRec)
  | rateLimited (partialItems : List TweetRec)
  | otherError (partialItems : List TweetRec)
deriving DecidableEq, Repr

def FetchOutcome.isRateLimited : FetchOutcome → Bool
  | .rateLimited _ => true
  | _ => false

/-- The language filter applied inside the collection loop: only items
with lang equal to en are kept. -/
def englishOnly (items : List TweetRec) : List TweetRec :=
  items.filter (fun t => t.lang == "en")

/-- Result of one collect_tweets call: the returned list, the sequence of
sleep durations performed (in seconds), and the number of attempts made. -/
structure CollectOut where
  result : List TweetRec
  waits : List Nat
  attempts : Nat
deriving DecidableEq, Repr

/-- The retry loop of collect_tweets. remaining counts loop iterations
still available out of max_retries; attempt and backoff mirror the Python
locals; acc is tweets_data. A successful attempt breaks out of the loop; a
rate-limit failure on a non-final attempt sleeps backoff seconds and
doubles it; any other failure on a non-final attempt sleeps
min(backoff, 30) seconds without doubling; a failure on the final attempt
returns the empty list. -/
def collectGo (fetch : Nat → FetchOutcome) :
    Nat → Nat → Nat → List TweetRec → List Nat → CollectOut
  | 0, attempt, _, acc, waits => ⟨acc, waits, attempt⟩
  | r + 1, attempt, backoff, acc, waits =>
    match fetch attempt with
    | .success items => ⟨acc ++ englishOnly items, waits, attempt + 1⟩
    | .rateLimited partialItems =>
        if 0 < r then
          collectGo fetch r (attempt + 1) (backoff * 2)
            (acc ++ englishOnly partialItems) (waits ++ [backoff])
        else ⟨[], waits, attempt + 1⟩
    | .otherError partialItems =>
        if 0 < r then
          collectGo fetch r (attempt + 1) backoff
            (acc ++ englishOnly partialItems) (waits ++ [min backoff 30])
        else ⟨[], waits, attempt + 1⟩

/-- TwitterCollector.collect_tweets: max_retries = 3, initial backoff 60
seconds, empty accumulator. The per-attempt outcome is the oracle fetch. -/
def collect_tweets (fetch : Nat → FetchOutcome) : CollectOut :=
  collectGo fetch 3 0 60 [] []

/-! ## Normalisation and cleaning: DataProcessor.process_batch_data -/

/-- One source payload as collected by an adapter. Every field is optional:
the three adapters populate different subsets, and nothing fills defaults
before the cleaning step. The fields are the union of the keys the
collectors emit that the downstream code reads. -/
structure Payload where
  id : Option String := none
  text : Option String := none
  title : Option String := none
  description : Option String := none
  platform : Option String := none
  created_at : Option Nat := none
  author_id : Option String := none
  author : Option String := none
  likes : Option Int := none
  retweets : Option Int := none
  score : Option Int := none
  collected_at : Option Nat := none
  keywords : Option (List String) := none
deriving DecidableEq, Repr

/-- A row of the Spark dataframe built by DataProcessor.define_schema: only
the nine schema fields survive; keys absent from a payload dictionary
become null. -/
structure PostRow where
  id : Option String
  text : Option String
  platform : Option String
  created_at : Option Nat
  author_id : Option String
  likes : Option Int
  retweets : Option Int
  collected_at : Option Nat
  keywords : Option (List String)
deriving DecidableEq, Repr

/-- Conversion of a payload dictionary to a schema row, modelling
createDataFrame with the explicit schema: each schema field is looked up
by name, extra keys (title, description, author, score, ...) are dropped. -/
def toRow (p : Payload) : PostRow :=
  { id := p.id
    text := p.text
    platform := p.platform
    created_at := p.created_at
    author_id := p.author_id
    likes := p.likes
    retweets := p.retweets
    collected_at := p.collected_at
    keywords := p.keywords }

/-- The cleaning filter of process_batch_data: text IS NOT NULL and
length(text) > 10. -/
def rowTextOk (r : PostRow) : Bool :=
  match r.text with
  | some t => 10 < t.length
  | none => false

/-- The filtered rows, before deduplication. -/
def cleanedRows (payloads : List Payload) : List PostRow :=
  (payloads.map toRow).filter rowTextOk

/-- Dataframe distinct: collapses rows that are equal in every column,
keeping one occurrence of each. -/
def sparkDistinct {α : Type} [DecidableEq α] : List α → List α
  | [] => []
  | a :: as =>
      if a ∈ sparkDistinct as then sparkDistinct as else a :: sparkDistinct as

/-- Segments of a character sequence split on the space character,
modelling split(text, " "); Spark splits with limit -1, so empty segments
are kept and the segment count is one more than the space count. -/
def splitSegments : List Char → List (List Char)
  | [] => [[]]
  | c :: t =>
    match splitSegments t with
    | [] => [[]]
    | s :: ss => if c = ' ' then [] :: s :: ss else (c :: s) :: ss

/-- A cleaned row with the three processing-metadata columns appended by
process_batch_data. -/
structure ProcessedRow extends PostRow where
  processing_time : Nat
  text_length : Option Nat
  word_count : Option Nat
deriving DecidableEq, Repr

/-- The withColumn stage: current_timestamp (the oracle now), the text
length, and the space-separated word count. -/
def addProcessingColumns (now : Nat) (r : PostRow) : ProcessedRow :=
  { toPostRow := r
    processing_time := now
    text_length := r.text.map String.length
    word_count := r.text.map (fun t => (splitSegments t.data).length) }

/-- DataProcessor.process_batch_data: empty input returns the empty list;
otherwise the payloads are mapped through the schema, filtered on non-null
text longer than 10 characters, deduplicated by whole-row equality, and
given the processing-metadata columns. Errors are caught and produce the
empty list, so the function is total. -/
def process_batch_data (payloads : List Payload) (now : Nat) : List ProcessedRow :=
  if payloads.isEmpty then []
  else (sparkDistinct (cleanedRows payloads)).map (addProcessingColumns now)

/-! ## Scoring batch: RealTimePipeline.process_sentiment_batch -/

/-- Python or on optional strings: None and the empty string are falsy, so
the left operand is kept only when it is a non-empty string. -/
def pyOr (a b : Option String) : Option String :=
  match a with
  | some s => if s = "" then b else some s
  | none => b

/-- The text selection of process_sentiment_batch:
get(text, empty) or get(title, empty) or get(description, empty). -/
def fallbackText (t ti d : Option String) : Option String :=
  pyOr (pyOr t ti) d

/-- The text chosen for one cleaned row. The row dictionary produced by
asDict always carries the nine schema keys, so the text key is present
(possibly null) while title and description are absent and their lookups
return the empty-string default. -/
def rowGetText (p : ProcessedRow) : Option String :=
  fallbackText p.text (some "") (some "")

/-- Python truthiness of the selected text: non-null and non-empty. -/
def strTruthy : Option String → Bool
  | some s => s != ""
  | none => false

/-- One record handed to sentiment-result storage, with the fields
process_sentiment_batch builds. The metadata likes and retweets keys come
from the row dictionary and stay null when null (the 0 default of get
applies only to absent keys); the score key is absent from the schema row,
so its lookup always yields the 0 default. -/
structure SentimentResult where
  post_id : Option String
  platform : Option String
  text : String
  created_at : Option Nat
  sentiment : TBSentiment
  meta_author : Option String
  meta_likes : Option Int
  meta_retweets : Option Int
  meta_score : Option Int
deriving DecidableEq, Repr

/-- SentimentAnalyzer.predict_sentiment in the pipeline: no trained model
is ever loaded (is_trained stays False), so the call always takes the
TextBlob path; pol and subj are the TextBlob oracles. -/
def predict_sentiment (pol subj : String → ℚ) (text : String) : TBSentiment :=
  textblob_sentiment (pol text) (subj text)

/-- RealTimePipeline.process_sentiment_batch: clean the batch, choose the
text for each cleaned row, and score every row whose chosen text is
truthy; rows with falsy text produce no result. -/
def process_sentiment_batch (pol subj : String → ℚ) (now : Nat)
    (posts : List Payload) : List SentimentResult :=
  (process_batch_data posts now).filterMap (fun p =>
    let t := rowGetText p
    if strTruthy t then
      some { post_id := p.id
             platform := p.platform
             text := t.getD ""
             created_at := p.created_at
             sentiment := predict_sentiment pol subj (t.getD "")
             meta_author := pyOr p.author_id none
             meta_likes := p.likes
             meta_retweets := p.retweets
             meta_score := some 0 }
    else none)

/-! ## Storage hand-off: RealTimePipeline.store_results and run_single_cycle -/

/-- RealTimePipeline.store_results, seen as the pair of batches handed to
the two insert calls: the raw posts are passed through unchanged when
non-empty, and likewise the sentiment results; an empty batch skips its
insert call. -/
def store_results (raw : List Payload) (rs : List SentimentResult) :
    List Payload × List SentimentResult :=
  (if raw.isEmpty then [] else raw, if rs.isEmpty then [] else rs)

/-- RealTimePipeline.run_single_cycle with the collected posts as input:
an empty collection round stores nothing; otherwise the batch is scored
and both batches are handed to storage. -/
def run_single_cycle (pol subj : String → ℚ) (now : Nat)
    (raw : List Payload) : List Payload × List SentimentResult :=
  if raw.isEmpty then ([], [])
  else store_results raw (process_sentiment_batch pol subj now raw)

/-! ## Scheduler timing: RealTimePipeline.start_streaming -/

/-- The sleep target computed after a cycle:
max(0, update_interval - cycle_duration). -/
def sleep_time (interval elapsed : ℚ) : ℚ := max 0 (interval - elapsed)

/-- The time actually slept: the loop sleeps only when the computed sleep
target is positive, and otherwise logs the overrun and proceeds. -/
def sleptDuration (interval elapsed : ℚ) : ℚ :=
  if sleep_time interval elapsed > 0 then sleep_time interval elapsed else 0

/-- The timing trace of the streaming loop: for fuel iterations starting
at cycle index n, each iteration runs one cycle (whose duration the oracle
dur reports) and records the pair of the cycle index and the time slept
after it. -/
def streamTrace (interval : ℚ) (dur : Nat → ℚ) : Nat → Nat → List (Nat × ℚ)
  | 0, _ => []
  | fuel + 1, n => (n, sleptDuration interval (dur n)) :: streamTrace interval dur fuel (n + 1)

/-! ## Construction and error isolation: pipeline init and cycle robustness -/

/-- MongoDBClient.connect: a single ping attempt; a failure propagates
(the except clause re-raises) and is not retried. -/
def mongo_connect (ping : Except String Unit) : Except String Unit := ping

/-- DataProcessor.setup_spark: a single session-creation attempt; a
failure propagates (the except clause re-raises). -/
def setup_spark (create : Except String Unit) : Except String Unit := create

/-- RealTimePipeline construction: MongoDBClient is built (connecting
eagerly), then DataProcessor is built (creating the Spark session); an
error from either aborts construction. -/
def pipeline_init (ping create : Except String Unit) : Except String Unit :=
  (mongo_connect ping).bind (fun _ => setup_spark create)

/-- One future joined with a 30-second bound inside its own try block: a
failing or timed-out source contributes no items and nothing propagates. -/
def future_result (r : Except String (List Payload)) : List Payload :=
  match r with
  | .ok l => l
  | .error _ => []

/-- RealTimePipeline.collect_data_from_all_sources: the three adapter
futures are joined one after the other, each wrapped in its own handler,
and the surviving item lists are concatenated. -/
def collect_data_from_all_sources (tw rd yt : Except String (List Payload)) :
    List Payload :=
  future_result tw ++ future_result rd ++ future_result yt

/-- One insert call of MongoDBClient: a database failure is caught inside
the method, which then returns the empty id list; otherwise the batch is
inserted. Nothing propagates to the caller either way. -/
def insert_outcome {α : Type} (fails : Bool) (batch : List α) : List α :=
  if fails then [] else batch

/-- RealTimePipeline.run_single_cycle with every failure source explicit:
the adapter outcomes tw, rd, yt; scoringCut models an exception raised
after some number of scored records (the surrounding handler keeps the
records accumulated so far); rawFails and sentFails model database errors
inside the two insert calls. The body is wrapped in a try block, and every
stage below it already contains its own handler, so the cycle always
completes with a value. -/
def run_single_cycle_robust (tw rd yt : Except String (List Payload))
    (scoringCut : Option Nat) (rawFails sentFails : Bool)
    (pol subj : String → ℚ) (now : Nat) :
    Except String (List Payload × List SentimentResult) :=
  let raw := collect_data_from_all_sources tw rd yt
  if raw.isEmpty then Except.ok ([], [])
  else
    let rsFull := process_sentiment_batch pol subj now raw
    let rs := match scoringCut with
      | none => rsFull
      | some k => rsFull.take k
    let handed := store_results raw rs
    Except.ok (insert_outcome rawFails handed.1, insert_outcome sentFails handed.2)

/-! ## Lifecycle: start_streaming and stop_streaming -/

/-- The pipeline state the lifecycle code mutates: the running flag, and
the number of times each release routine has called into its handle.
DataProcessor.stop_spark runs spark.stop() whenever the spark handle is
set, and MongoDBClient.close_connection runs client.close() whenever the
client handle is set; neither handle is ever cleared after construction,
so each call of the release routine reaches the handle. -/
structure PipelineState where
  is_running : Bool
  spark_stop_calls : Nat
  close_calls : Nat
deriving DecidableEq, Repr

/-- RealTimePipeline.stop_streaming: clears the running flag, then calls
stop_spark and close_connection. -/
def stop_streaming (s : PipelineState) : PipelineState :=
  { is_running := false
    spark_stop_calls := s.spark_stop_calls + 1
    close_calls := s.close_calls + 1 }

/-- The while loop of start_streaming. The flag is read only at the loop
head; one iteration runs a full cycle (cycles are not preemptible), after
which an external stop_streaming call requested during that cycle takes
effect — the stopReq oracle says whether such a call arrives during cycle
number cycles. When the loop head observes the cleared flag, the loop
exits and start_streaming calls stop_streaming itself. The second
component of the result counts completed cycles. -/
def streaming_loop (stopReq : Nat → Bool) :
    Nat → Nat → PipelineState → PipelineState × Nat
  | 0, cycles, s => (s, cycles)
  | fuel + 1, cycles, s =>
    if s.is_running then
      let s1 := if stopReq cycles then stop_streaming s else s
      streaming_loop stopReq fuel (cycles + 1) s1
    else
      (stop_streaming s, cycles)

/-- RealTimePipeline.start_streaming from the freshly constructed state. -/
def start_streaming (stopReq : Nat → Bool) (fuel : Nat) : PipelineState × Nat :=
  streaming_loop stopReq fuel 0
    { is_running := true, spark_stop_calls := 0, close_calls := 0 }

/-! ## Concrete payloads used in counterexamples and witnesses -/

/-- A payload whose text passes the length filter while every other field
is absent. -/
def longTextPayload : Payload := { text := some ("this text is long enough") }

/-- A payload whose text has exactly 10 characters. -/
def tenCharPayload : Payload := { id := some ("x10"), text := some ("abcdefghij") }

/-- A payload with an id, long enough to pass the length filter. -/
def dupIdPayload : Payload :=
  { id := some ("a"), text := some ("duplicate id long text") }

/-! ## Theorems: C1, C2, C4 -/

/-- A fetch outcome satisfying the rate-limit test is a rateLimited value. -/
theorem exists_rateLimited {o : FetchOutcome} (h : o.isRateLimited = true) :
    ∃ l, o = FetchOutcome.rateLimited l := by
  cases o with
  | success items => simp [FetchOutcome.isRateLimited] at h
  | rateLimited l => exact ⟨l, rfl⟩
  | otherError l => simp [FetchOutcome.isRateLimited] at h

/-- C1: when every attempt of a fetch call fails with a rate-limit
classified error, collect_tweets makes exactly 3 attempts, sleeps 60
seconds before the second attempt and 120 seconds before the third
(backoff starting at 60 and doubling per retry), and then returns the
empty result list rather than raising or making a fourth attempt. -/
theorem collect_tweets_rate_limit_exhaustion (fetch : Nat → FetchOutcome)
    (h : ∀ n, (fetch n).isRateLimited = true) :
    (collect_tweets fetch).result = [] ∧
    (collect_tweets fetch).waits = [60, 120] ∧
    (collect_tweets fetch).attempts = 3 := by
  obtain ⟨l0, hf0⟩ := exists_rateLimited (h 0)
  obtain ⟨l1, hf1⟩ := exists_rateLimited (h 1)
  obtain ⟨l2, hf2⟩ := exists_rateLimited (h 2)
  simp [collect_tweets, collectGo, hf0, hf1, hf2]

/-- Witness for C1 at the constant rate-limited fetch oracle. -/
theorem collect_tweets_rate_limit_exhaustion_witness :
    (collect_tweets (fun _ => FetchOutcome.rateLimited [])).result = [] ∧
    (collect_tweets (fun _ => FetchOutcome.rateLimited [])).waits = [60, 120] ∧
    (collect_tweets (fun _ => FetchOutcome.rateLimited [])).attempts = 3 :=
  collect_tweets_rate_limit_exhaustion (fun _ => FetchOutcome.rateLimited [])
    (fun _ => rfl)

/-- C2 counterexample: the message below contains the substring
unauthorized, yet the policy decides retryable, because the network-term
check runs before the authentication-term check and the message also
contains the substring connection. -/
theorem should_retry_auth_counterexample :
    infixOfChars ("unauthorized").data
      (strLower ("Connection refused: unauthorized")) = true ∧
    should_retry ("Connection refused: unauthorized") 1 = true := by decide

/-- C2 (amended): an error message that contains one of the
authentication terms (unauthorized, forbidden, invalid credentials,
case-insensitively) and contains none of the retryable-classified terms
(timeout, connection, network, rate limit, too many requests) is decided
non-retryable, whatever the error count. -/
theorem should_retry_auth_never_retries (msg : String) (count : Nat)
    (hauth : containsAnyTerm (strLower msg)
      ["unauthorized", "forbidden", "invalid credentials"] = true)
    (hnet : containsAnyTerm (strLower msg)
      ["timeout", "connection", "network"] = false)
    (hrate : containsAnyTerm (strLower msg)
      ["rate limit", "too many requests"] = false) :
    should_retry msg count = false := by
  simp [should_retry, hauth, hnet, hrate]

/-- Witness for the amended C2 at a pure authentication failure. -/
theorem should_retry_auth_never_retries_witness :
    should_retry ("401 Unauthorized") 1 = false :=
  should_retry_auth_never_retries ("401 Unauthorized") 1
    (by decide) (by decide) (by decide)

/-- C4: for any polarity value in the documented TextBlob range [-1, 1],
the heuristic path labels positive iff polarity exceeds 1/10, negative iff
polarity is below -1/10, neutral otherwise; the confidence equals the
absolute polarity and lies in [0, 1]. -/
theorem textblob_sentiment_spec (p s : ℚ) (h1 : -1 ≤ p) (h2 : p ≤ 1) :
    (p > 1/10 → (textblob_sentiment p s).label = SentLabel.positive) ∧
    (p < -(1/10) → (textblob_sentiment p s).label = SentLabel.negative) ∧
    (-(1/10) ≤ p → p ≤ 1/10 → (textblob_sentiment p s).label = SentLabel.neutral) ∧
    (textblob_sentiment p s).confidence = |p| ∧
    0 ≤ (textblob_sentiment p s).confidence ∧
    (textblob_sentiment p s).confidence ≤ 1 := by
  have hl : (textblob_sentiment p s).label =
      (if p > 1/10 then SentLabel.positive
       else if p < -(1/10) then SentLabel.negative
       else SentLabel.neutral) := rfl
  refine ⟨?_, ?_, ?_, rfl, abs_nonneg p, abs_le.mpr ⟨h1, h2⟩⟩
  · intro hp
    rw [hl, if_pos hp]
  · intro hp
    have hnp : ¬ p > 1/10 := by linarith
    rw [hl, if_neg hnp, if_pos hp]
  · intro hlo hhi
    have hnp : ¬ p > 1/10 := by linarith
    have hnn : ¬ p < -(1/10) := by linarith
    rw [hl, if_neg hnp, if_neg hnn]

/-- Witness for C4 at polarity 1/2. -/
theorem textblob_sentiment_spec_witness :
    ((1:ℚ)/2 > 1/10 → (textblob_sentiment (1/2) 0).label = SentLabel.positive) ∧
    ((1:ℚ)/2 < -(1/10) → (textblob_sentiment (1/2) 0).label = SentLabel.negative) ∧
    (-(1/10) ≤ (1:ℚ)/2 → (1:ℚ)/2 ≤ 1/10 →
      (textblob_sentiment (1/2) 0).label = SentLabel.neutral) ∧
    (textblob_sentiment ((1:ℚ)/2) 0).confidence = |(1:ℚ)/2| ∧
    0 ≤ (textblob_sentiment ((1:ℚ)/2) 0).confidence ∧
    (textblob_sentiment ((1:ℚ)/2) 0).confidence ≤ 1 :=
  textblob_sentiment_spec (1/2) 0 (by norm_num) (by norm_num)

/-! ## Helper lemmas about the dataframe operations -/

/-- Membership is unchanged by the whole-row deduplication. -/
theorem mem_sparkDistinct {α : Type} [DecidableEq α] (l : List α) :
    ∀ a, a ∈ sparkDistinct l ↔ a ∈ l := by
  induction l with
  | nil => intro a; simp [sparkDistinct]
  | cons b bs ih =>
    intro a
    simp only [sparkDistinct]
    split
    · next hb =>
      rw [ih a]
      constructor
      · exact fun h => List.mem_cons_of_mem b h
      · intro h
        rcases List.mem_cons.mp h with h | h
        · rw [h]; exact (ih b).mp hb
        · exact h
    · simp [List.mem_cons, ih a]

/-- The deduplicated row list has no repeated element. -/
theorem nodup_sparkDistinct {α : Type} [DecidableEq α] (l : List α) :
    (sparkDistinct l).Nodup := by
  induction l with
  | nil => simp [sparkDistinct]
  | cons b bs ih =>
    simp only [sparkDistinct]
    split
    · exact ih
    · next hb => exact List.nodup_cons.mpr ⟨hb, ih⟩

/-- The cleaning predicate in propositional form. -/
theorem rowTextOk_iff (r : PostRow) :
    rowTextOk r = true ↔ r.text ≠ none ∧ 10 < (r.text.getD "").length := by
  cases h : r.text <;> simp [rowTextOk, h]

/-- The slept time always equals the clamped sleep target. -/
theorem sleptDuration_eq_max (interval elapsed : ℚ) :
    sleptDuration interval elapsed = max 0 (interval - elapsed) := by
  unfold sleptDuration sleep_time
  split
  · rfl
  · next h =>
    push_neg at h
    exact (le_antisymm h (le_max_left 0 _)).symm

/-- Closed form of the timing trace from an arbitrary starting index. -/
theorem streamTrace_eq (interval : ℚ) (dur : Nat → ℚ) (fuel : Nat) :
    ∀ n, streamTrace interval dur fuel n =
      (List.range fuel).map
        (fun i => (n + i, sleptDuration interval (dur (n + i)))) := by
  induction fuel with
  | zero => intro n; simp [streamTrace]
  | succ f ih =>
    intro n
    rw [streamTrace, ih (n + 1), List.range_succ_eq_map]
    simp only [List.map_cons, List.map_map, Nat.add_zero]
    congr 1
    apply List.map_congr_left
    intro i _
    simp only [Function.comp_apply]
    have : n + 1 + i = n + (i + 1) := by omega
    rw [this]

/-! ## Theorems: C3 scheduler timing -/

/-- C3: for every cycle of the scheduler loop, the time slept after
runCycle is exactly max(0, interval - elapsed); the slept time is never
negative, and a cycle whose duration reaches the interval is followed by a
zero sleep while the next cycle still runs (the trace visits every cycle
index in order). -/
theorem scheduler_sleep_spec (interval : ℚ) (dur : Nat → ℚ) (fuel : Nat) :
    streamTrace interval dur fuel 0 =
      (List.range fuel).map (fun i => (i, max 0 (interval - dur i))) ∧
    (∀ e, 0 ≤ sleptDuration interval e) ∧
    (∀ e, interval ≤ e → sleptDuration interval e = 0) := by
  refine ⟨?_, ?_, ?_⟩
  · rw [streamTrace_eq]
    apply List.map_congr_left
    intro i _
    simp [sleptDuration_eq_max]
  · intro e
    rw [sleptDuration_eq_max]
    exact le_max_left 0 _
  · intro e he
    rw [sleptDuration_eq_max]
    exact max_eq_left (by linarith)

/-- Witness for C3: a 40-second cycle against a 30-second interval sleeps
zero time. -/
theorem scheduler_sleep_spec_witness : sleptDuration 30 40 = 0 :=
  (scheduler_sleep_spec 30 (fun _ => 0) 0).2.2 40 (by norm_num)

/-! ## Theorems: C5 normalisation totality and defaults -/

/-- C5 counterexample: a payload carrying only a long text survives
cleaning, and the produced record has null id, null platform and null
collected_at; its sentiment record carries a null likes value rather than
the 0 default. -/
theorem normalize_nonnull_counterexample :
    (process_batch_data [longTextPayload] 0).map (fun r => r.id) = [none] ∧
    (process_batch_data [longTextPayload] 0).map (fun r => r.platform) = [none] ∧
    (process_batch_data [longTextPayload] 0).map (fun r => r.collected_at) = [none] ∧
    (process_sentiment_batch (fun _ => 0) (fun _ => 0) 0 [longTextPayload]).map
      (fun r => r.meta_likes) = [none] := by decide

/-- C5 (amended): normalisation is total — every cleaned record exists and
has a non-null text longer than 10 characters; the text selection falls
back from a null or empty text through the title, then the description,
then the empty string; the score metadata field defaults to 0 because its
key is absent from the schema row. The produced records need not have
non-null platform, id or collected_at, and a null likes or retweets value
passes through as null. -/
theorem normalize_total_spec :
    (∀ payloads now, ∀ r ∈ process_batch_data payloads now,
        r.text ≠ none ∧ 10 < (r.text.getD "").length) ∧
    (∀ ti d, fallbackText none ti d = fallbackText (some "") ti d) ∧
    (∀ s ti d, s ≠ "" → fallbackText (some s) ti d = some s) ∧
    (∀ s d, s ≠ "" → fallbackText none (some s) d = some s) ∧
    (∀ d, fallbackText none (some "") d = d) ∧
    (∀ pol subj now posts, ∀ r ∈ process_sentiment_batch pol subj now posts,
        r.meta_score = some 0) := by
  refine ⟨?_, ?_, ?_, ?_, ?_, ?_⟩
  · intro payloads now r hr
    unfold process_batch_data at hr
    by_cases hp : payloads.isEmpty
    · rw [if_pos hp] at hr
      simp at hr
    · rw [if_neg hp] at hr
      obtain ⟨rr, hrr, hback⟩ := List.mem_map.mp hr
      have hclean : rr ∈ cleanedRows payloads := (mem_sparkDistinct _ rr).mp hrr
      unfold cleanedRows at hclean
      have hok : rowTextOk rr = true := (List.mem_filter.mp hclean).2
      have htext : r.text = rr.text := by rw [← hback]; rfl
      rw [htext]
      exact (rowTextOk_iff rr).mp hok
  · intro ti d
    rfl
  · intro s ti d hs
    simp [fallbackText, pyOr, hs]
  · intro s d hs
    simp [fallbackText, pyOr, hs]
  · intro d
    rfl
  · intro pol subj now posts r hr
    unfold process_sentiment_batch at hr
    obtain ⟨p, _, heq⟩ := List.mem_filterMap.mp hr
    by_cases ht : strTruthy (rowGetText p)
    · rw [if_pos ht] at heq
      obtain rfl := Option.some.inj heq
      rfl
    · rw [if_neg ht] at heq
      exact absurd heq (by simp)

/-- Witness for the amended C5: a non-empty text is kept as is by the
fallback chain. -/
theorem normalize_total_spec_witness :
    fallbackText (some ("abc")) none none = some ("abc") :=
  normalize_total_spec.2.2.1 ("abc") none none (by decide)

/-! ## Theorems: C6 length filter -/

/-- C6 counterexample: a record whose text has exactly 10 characters is
dropped by the cleaning filter and never reaches scoring, because the
filter keeps only texts strictly longer than 10 characters. -/
theorem length_filter_counterexample :
    ("abcdefghij" : String).length = 10 ∧
    process_batch_data [tenCharPayload] 0 = [] ∧
    process_sentiment_batch (fun _ => 0) (fun _ => 0) 0 [tenCharPayload] = [] := by
  decide

/-- C6 (amended): the cleaning step drops exactly those records whose
normalized text is null or at most 10 characters long; a record survives
the filter and reaches the scoring stage precisely when its text is
non-null and at least 11 characters long. -/
theorem length_filter_spec :
    (∀ payloads (r : PostRow),
        r ∈ cleanedRows payloads ↔
          (r ∈ payloads.map toRow ∧ r.text ≠ none ∧ 10 < (r.text.getD "").length)) ∧
    (∀ payloads now (r : PostRow),
        (∃ pr ∈ process_batch_data payloads now, pr.toPostRow = r) ↔
          r ∈ cleanedRows payloads) := by
  constructor
  · intro payloads r
    unfold cleanedRows
    rw [List.mem_filter, rowTextOk_iff]
  · intro payloads now r
    constructor
    · rintro ⟨pr, hpr, rfl⟩
      unfold process_batch_data at hpr
      by_cases hp : payloads.isEmpty
      · rw [if_pos hp] at hpr
        simp at hpr
      · rw [if_neg hp] at hpr
        obtain ⟨rr, hrr, hb⟩ := List.mem_map.mp hpr
        have hpr2 : pr.toPostRow = rr := by rw [← hb]; rfl
        rw [hpr2]
        exact (mem_sparkDistinct _ rr).mp hrr
    · intro hr
      have hne : ¬ payloads.isEmpty = true := by
        intro hp
        rw [List.isEmpty_iff.mp hp] at hr
        simp [cleanedRows] at hr
      refine ⟨addProcessingColumns now r, ?_, rfl⟩
      unfold process_batch_data
      rw [if_neg hne]
      exact List.mem_map_of_mem _ ((mem_sparkDistinct _ r).mpr hr)

/-- Witness for the amended C6: an 11-character text survives cleaning. -/
theorem length_filter_spec_witness :
    toRow { id := some ("w"), text := some ("abcdefghijk") } ∈
      cleanedRows [{ id := some ("w"), text := some ("abcdefghijk") }] :=
  (length_filter_spec.1 [{ id := some ("w"), text := some ("abcdefghijk") }]
      (toRow { id := some ("w"), text := some ("abcdefghijk") })).mpr
    (by decide)

/-! ## Theorems: C7 deduplication -/

/-- C7 counterexample: two collected records with the same id both reach
the raw-post storage call — the batch handed to the insert is the raw
collected list, which is never deduplicated, so two posts with id a are
stored rather than exactly one. -/
theorem dedup_by_id_counterexample :
    ((run_single_cycle (fun _ => 0) (fun _ => 0) 0
        [dupIdPayload, dupIdPayload]).1.countP
      (fun p => p.id == some ("a"))) = 2 := by decide

/-- C7 (amended): deduplication acts only on the scoring path and only on
whole rows: the deduplicated cleaned rows contain no repeats and keep
exactly the set of cleaned rows, while the raw posts are handed to storage
unchanged — records sharing an id are not collapsed there. -/
theorem distinct_whole_rows_spec :
    (∀ (raw : List Payload) rs, ¬ raw.isEmpty → (store_results raw rs).1 = raw) ∧
    (∀ payloads, (sparkDistinct (cleanedRows payloads)).Nodup) ∧
    (∀ payloads r, r ∈ sparkDistinct (cleanedRows payloads) ↔ r ∈ cleanedRows payloads) := by
  refine ⟨?_, ?_, ?_⟩
  · intro raw rs hne
    simp [store_results, hne]
  · intro payloads
    exact nodup_sparkDistinct _
  · intro payloads r
    exact mem_sparkDistinct _ r

/-- Witness for the amended C7: a singleton raw batch is handed to storage
unchanged. -/
theorem distinct_whole_rows_spec_witness :
    (store_results [dupIdPayload] []).1 = [dupIdPayload] :=
  distinct_whole_rows_spec.1 [dupIdPayload] [] (by decide)

/-! ## Theorems: C8 sentiment results match stored posts -/

/-- C8: every sentiment result handed to storage in a cycle carries the id
of some post handed to storage in the same cycle. -/
theorem sentiment_results_have_stored_post (pol subj : String → ℚ) (now : Nat)
    (raw : List Payload) :
    ∀ r ∈ (run_single_cycle pol subj now raw).2,
      ∃ p ∈ (run_single_cycle pol subj now raw).1, r.post_id = p.id := by
  intro r hr
  unfold run_single_cycle at hr ⊢
  by_cases hraw : raw.isEmpty
  · rw [if_pos hraw] at hr
    simp at hr
  · rw [if_neg hraw] at hr ⊢
    unfold store_results at hr ⊢
    simp only at hr ⊢
    rw [if_neg hraw]
    have hrs : r ∈ process_sentiment_batch pol subj now raw := by
      by_cases he : (process_sentiment_batch pol subj now raw).isEmpty
      · rw [if_pos he] at hr
        simp at hr
      · rwa [if_neg he] at hr
    unfold process_sentiment_batch at hrs
    obtain ⟨pr, hpr, heq⟩ := List.mem_filterMap.mp hrs
    have hpost : r.post_id = pr.id := by
      by_cases ht : strTruthy (rowGetText pr)
      · rw [if_pos ht] at heq
        obtain rfl := Option.some.inj heq
        rfl
      · rw [if_neg ht] at heq
        exact absurd heq (by simp)
    unfold process_batch_data at hpr
    rw [if_neg hraw] at hpr
    obtain ⟨rr, hrr, hb⟩ := List.mem_map.mp hpr
    have hclean : rr ∈ cleanedRows raw := (mem_sparkDistinct _ rr).mp hrr
    unfold cleanedRows at hclean
    obtain ⟨q, hq, hqr⟩ := List.mem_map.mp (List.mem_filter.mp hclean).1
    refine ⟨q, hq, ?_⟩
    rw [hpost, ← hb, ← hqr]
    rfl

/-- Witness for C8 on a one-payload cycle. -/
theorem sentiment_results_have_stored_post_witness :
    ∃ p ∈ (run_single_cycle (fun _ => 0) (fun _ => 0) 0 [dupIdPayload]).1,
      ({ post_id := some ("a"), platform := none,
         text := "duplicate id long text", created_at := none,
         sentiment := textblob_sentiment 0 0, meta_author := none,
         meta_likes := none, meta_retweets := none,
         meta_score := some 0 } : SentimentResult).post_id = p.id :=
  sentiment_results_have_stored_post (fun _ => 0) (fun _ => 0) 0 [dupIdPayload]
    { post_id := some ("a"), platform := none,
      text := "duplicate id long text", created_at := none,
      sentiment := textblob_sentiment 0 0, meta_author := none,
      meta_likes := none, meta_retweets := none,
      meta_score := some 0 }
    (List.mem_singleton.mpr rfl)

/-! ## Theorems: C9 error propagation -/

/-- C9 counterexample: with the storage connection succeeding, a failure
to create the Spark session still aborts pipeline construction, so the
storage connection is not the only condition that aborts it. -/
theorem init_aborts_on_spark_failure :
    (mongo_connect (Except.ok ())).isOk = true ∧
    pipeline_init (Except.ok ()) (Except.error ("spark failed")) =
      Except.error ("spark failed") :=
  ⟨rfl, rfl⟩

/-- C9 (amended): a failing source adapter contributes exactly what an
empty successful one does; a cycle completes with a value whatever the
adapter outcomes, the scoring interruption point and the two storage
failure flags are; and construction succeeds exactly when both the storage
connection and the Spark session creation succeed — either failure aborts
it, unretried. -/
theorem error_isolation_spec :
    (∀ e rd yt, collect_data_from_all_sources (Except.error e) rd yt =
        collect_data_from_all_sources (Except.ok []) rd yt) ∧
    (∀ tw e yt, collect_data_from_all_sources tw (Except.error e) yt =
        collect_data_from_all_sources tw (Except.ok []) yt) ∧
    (∀ tw rd e, collect_data_from_all_sources tw rd (Except.error e) =
        collect_data_from_all_sources tw rd (Except.ok [])) ∧
    (∀ tw rd yt cut rawFails sentFails pol subj now,
        (run_single_cycle_robust tw rd yt cut rawFails sentFails
            pol subj now).isOk = true) ∧
    (∀ ping create, (pipeline_init ping create).isOk = (ping.isOk && create.isOk)) := by
  refine ⟨?_, ?_, ?_, ?_, ?_⟩
  · intro e rd yt
    rfl
  · intro tw e yt
    simp [collect_data_from_all_sources, future_result]
  · intro tw rd e
    simp [collect_data_from_all_sources, future_result]
  · intro tw rd yt cut rawFails sentFails pol subj now
    cases cut <;>
      by_cases h : (collect_data_from_all_sources tw rd yt).isEmpty <;>
        simp [run_single_cycle_robust, h, Except.isOk, Except.toBool]
  · intro ping create
    cases ping <;> cases create <;> rfl

/-! ## Theorems: C10 stop semantics -/

/-- C10 counterexample: an external stop request arriving during the first
cycle lets that cycle complete, but each release routine then runs twice —
once inside the external stop_streaming call and once more when the loop
exits and start_streaming calls stop_streaming again — so the connections
are not released exactly once. -/
theorem stop_releases_twice_counterexample :
    start_streaming (fun n => n == 0) 5 =
      ({ is_running := false, spark_stop_calls := 2, close_calls := 2 }, 1) := by
  decide

/-- Trace of the loop when the single stop request arrives during cycle
number K: the in-flight cycle completes, the flag is observed at the next
loop head, and the release routines run once in the external call and once
more on loop exit. -/
theorem streaming_loop_stop_at (K : Nat) :
    ∀ (j fuel cycles : Nat) (s : PipelineState), s.is_running = true →
      K = cycles + j → j + 1 < fuel →
      streaming_loop (fun n => n == K) fuel cycles s =
        (stop_streaming (stop_streaming s), K + 1) := by
  intro j
  induction j with
  | zero =>
    intro fuel cycles s hrun hK hf
    cases fuel with
    | zero => exact absurd hf (by omega)
    | succ f =>
      cases f with
      | zero => exact absurd hf (by omega)
      | succ f2 =>
        have hreq : (cycles == K) = true := by
          simp [hK]
        have hstop : (stop_streaming s).is_running = false := rfl
        simp only [streaming_loop, hrun, if_true, hreq, hstop, if_false,
          Bool.false_eq_true]
        rw [hK]
  | succ j ih =>
    intro fuel cycles s hrun hK hf
    cases fuel with
    | zero => exact absurd hf (by omega)
    | succ f =>
      have hreq : (cycles == K) = false := by
        simp only [beq_eq_false_iff_ne, ne_eq]
        omega
      simp only [streaming_loop, hrun, if_true, hreq, if_false,
        Bool.false_eq_true]
      exact ih f (cycles + 1) s hrun (by omega) (by omega)

/-- C10 (amended): a stop requested while the pipeline runs is observed
only at the loop iteration boundary and the in-flight cycle completes
before the loop exits; on exit, however, each component release routine
has been invoked twice — once by the external stop_streaming call and once
by the loop exit path — because the spark and client handles are never
cleared. -/
theorem stop_semantics_spec (k fuel : Nat) (h : k + 1 < fuel) :
    start_streaming (fun n => n == k) fuel =
      ({ is_running := false, spark_stop_calls := 2, close_calls := 2 }, k + 1) := by
  unfold start_streaming
  rw [streaming_loop_stop_at k k fuel 0
    { is_running := true, spark_stop_calls := 0, close_calls := 0 }
    rfl (by omega) h]
  rfl

/-- Witness for the amended C10: a stop request during cycle 1 with fuel
4 completes 2 cycles and runs each release routine twice. -/
theorem stop_semantics_spec_witness :
    start_streaming (fun n => n == 1) 4 =
      ({ is_running := false, spark_stop_calls := 2, close_calls := 2 }, 2) :=
  stop_semantics_spec 1 4 (by omega)
